import Mathlib

/-!
Shallow embedding of `src/fileguard.py`, the detection-and-policy-decision
engine of the repository: `detect_file_type`, `validate_upload`, the
`DEFAULT_ALLOWLIST` constant and the exception taxonomy.

The underlying byte-signature classifier (`magic.from_buffer` from the
third-party `magic` library) is out of scope of the repository and is
modelled as an abstract parameter: a function from the byte buffer to an
outcome that is either a MIME-type string, a `magic.MagicException`, or any
other exception, exactly the three cases `detect_file_type` distinguishes.

Byte buffers are modelled as `List Nat` (only emptiness and the bytes'
identity matter to the code under verification); Python sets of strings are
modelled as `List String` with membership semantics (`detected in allowlist`
becomes `List.contains`, `len(allowlist) == 0` becomes `List.length = 0`,
`list(allowlist)` becomes the snapshot of that list).
-/

namespace FileGuard

/-- A byte buffer (Python `bytes`). -/
abbrev ByteBuf := List Nat

/-- Outcome of one call to the external classifier `magic.from_buffer`:
a MIME string, a `magic.MagicException`, or any other exception. -/
inductive MagicOutcome where
  | ok (mime : String)
  | magicExc (msg : String)
  | exc (msg : String)
deriving DecidableEq, Repr

/-- The external classifier, as a black-box function of the buffer. -/
abbrev Classifier := ByteBuf → MagicOutcome

/-- The exception taxonomy of `fileguard.py`: `InvalidFileError` and
`InvalidConfigError` are subclasses of `FileGuardError`; `fileGuard` is a
bare `FileGuardError` (the `Magic library error` path). -/
inductive FileGuardErr where
  | invalidFile (msg : String)
  | invalidConfig (msg : String)
  | fileGuard (msg : String)
deriving DecidableEq, Repr

/-- The catchable kind of a raised error: which exception class the
`raise` used (the message aside). -/
inductive ErrKind where
  | invalidFileK
  | invalidConfigK
  | fileGuardK
deriving DecidableEq, Repr

/-- Kind of an error value. -/
def errKind : FileGuardErr → ErrKind
  | .invalidFile _ => .invalidFileK
  | .invalidConfig _ => .invalidConfigK
  | .fileGuard _ => .fileGuardK

/-- `DEFAULT_ALLOWLIST` of `src/fileguard.py` lines 24-29, in source order. -/
def DEFAULT_ALLOWLIST : List String :=
  ["image/png", "image/jpeg", "image/gif", "image/webp",
   "video/mp4", "video/webm",
   "application/json", "text/plain", "text/vtt",
   "application/pdf"]

/-- `detect_file_type` of `src/fileguard.py` lines 31-52, parameterised by
the classifier. Empty buffer raises `InvalidFileError`; a
`magic.MagicException` is re-raised as `InvalidFileError`; any other
exception as bare `FileGuardError`. -/
def detect_file_type (magic : Classifier) (blob : ByteBuf) :
    Except FileGuardErr String :=
  if blob.isEmpty then
    .error (.invalidFile "Cannot detect type of empty file")
  else
    match magic blob with
    | .ok mime => .ok mime
    | .magicExc e => .error (.invalidFile ("Failed to detect file type: " ++ e))
    | .exc e => .error (.fileGuard ("Magic library error: " ++ e))

/-- The single-quote character, as it appears in the reason f-string. -/
def sq : String := String.singleton (Char.ofNat 39)

/-- The reason f-string of `src/fileguard.py` line 89. -/
def mkReason (detected : String) (allowed : Bool) (context : String) : String :=
  "Type " ++ sq ++ detected ++ sq ++ " "
    ++ (if allowed then "permitted" else "blocked") ++ " for " ++ context

/-- `FileTypeResult` of `src/fileguard.py` lines 5-9. -/
structure FileTypeResult where
  allowed : Bool
  detected_type : String
  expected_types : List String
  reason : String
deriving DecidableEq, Repr

/-- `validate_upload` of `src/fileguard.py` lines 54-90, parameterised by
the classifier. `allowlist = none` models the Python default `None`; the
Python default `context="upload"` is passed explicitly by callers here. -/
def validate_upload (magic : Classifier) (blob : ByteBuf)
    (allowlist : Option (List String)) (context : String) :
    Except FileGuardErr FileTypeResult :=
  if blob.isEmpty then
    .error (.invalidFile "Cannot validate empty file")
  else
    match allowlist with
    | none =>
      match detect_file_type magic blob with
      | .error e => .error e
      | .ok detected =>
        .ok { allowed := DEFAULT_ALLOWLIST.contains detected
              detected_type := detected
              expected_types := DEFAULT_ALLOWLIST
              reason := mkReason detected (DEFAULT_ALLOWLIST.contains detected) context }
    | some al =>
      if al.length = 0 then
        .error (.invalidConfig "Allowlist cannot be empty")
      else
        match detect_file_type magic blob with
        | .error e => .error e
        | .ok detected =>
          .ok { allowed := al.contains detected
                detected_type := detected
                expected_types := al
                reason := mkReason detected (al.contains detected) context }

/-- `needle` occurs verbatim as a contiguous substring of `hay`. -/
def strContains (hay needle : String) : Prop :=
  needle.data <:+: hay.data

instance (hay needle : String) : Decidable (strContains hay needle) :=
  inferInstanceAs (Decidable (needle.data <:+: hay.data))

/-!
State-threaded model, for the mutation / frame claims. The only values a
call can see besides its arguments are the contents of the shared
`DEFAULT_ALLOWLIST` container, the contents of the caller-supplied
allow-list set (when one is supplied), and the contents of the byte
buffer. `GuardState` holds these contents; each Python operation the
source performs on them (truthiness test of `blob`, `len(allowlist)`,
`detected in allowlist`, `list(allowlist)`, f-string formatting) is a read,
so the translation threads the state through every step and returns it
with the result, on the success path and on every raise path. -/

/-- The observable mutable contents a call of `fileguard.py` touches. -/
structure GuardState where
  default_allowlist : List String
  caller_set : Option (List String)
  buffer : ByteBuf
deriving DecidableEq, Repr

/-- State-threaded `detect_file_type`: reads `buffer` from the state,
returns the result together with the post-call state. -/
def detect_file_type_st (magic : Classifier) (s : GuardState) :
    (Except FileGuardErr String) × GuardState :=
  if s.buffer.isEmpty then
    (.error (.invalidFile "Cannot detect type of empty file"), s)
  else
    match magic s.buffer with
    | .ok mime => (.ok mime, s)
    | .magicExc e => (.error (.invalidFile ("Failed to detect file type: " ++ e)), s)
    | .exc e => (.error (.fileGuard ("Magic library error: " ++ e)), s)

/-- State-threaded `validate_upload`: reads `buffer`, `caller_set` and
`default_allowlist` from the state, returns the result together with the
post-call state. `list(allowlist)` is a copy of the read contents. -/
def validate_upload_st (magic : Classifier) (s : GuardState) (context : String) :
    (Except FileGuardErr FileTypeResult) × GuardState :=
  if s.buffer.isEmpty then
    (.error (.invalidFile "Cannot validate empty file"), s)
  else
    match s.caller_set with
    | none =>
      match detect_file_type_st magic s with
      | (.error e, s₁) => (.error e, s₁)
      | (.ok detected, s₁) =>
        (.ok { allowed := s₁.default_allowlist.contains detected
               detected_type := detected
               expected_types := s₁.default_allowlist
               reason := mkReason detected (s₁.default_allowlist.contains detected) context },
         s₁)
    | some al =>
      if al.length = 0 then
        (.error (.invalidConfig "Allowlist cannot be empty"), s)
      else
        match detect_file_type_st magic s with
        | (.error e, s₁) => (.error e, s₁)
        | (.ok detected, s₁) =>
          (.ok { allowed := al.contains detected
                 detected_type := detected
                 expected_types := al
                 reason := mkReason detected (al.contains detected) context },
           s₁)

/-- The classifier call itself raised (either exception kind), rather than
returning a type string. -/
def classifierErrored : MagicOutcome → Bool
  | .ok _ => false
  | .magicExc _ => true
  | .exc _ => true

/-- Concrete classifier that recognises every buffer as a PNG image. -/
def cPng : Classifier := fun _ => .ok "image/png"

/-- Concrete classifier whose library raises `magic.MagicException` on
every buffer (e.g. a corrupted signature database). -/
def cMagicErr : Classifier := fun _ => .magicExc "corrupted signature database"

/-- Concrete classifier whose library raises a non-Magic exception on
every buffer (e.g. library misconfiguration). -/
def cExcErr : Classifier := fun _ => .exc "library misconfiguration"

/-- Leading bytes of the PNG signature, as a concrete buffer. -/
def pngBuf : ByteBuf := [137, 80, 78, 71, 13, 10, 26, 10]

/-- A concrete state: the default allow-list contents, no caller set,
the PNG buffer. -/
def s0 : GuardState :=
  { default_allowlist := DEFAULT_ALLOWLIST, caller_set := none, buffer := pngBuf }

/-- The concrete result `validate_upload cPng pngBuf none "upload"` builds. -/
def rPng : FileTypeResult :=
  { allowed := true
    detected_type := "image/png"
    expected_types := DEFAULT_ALLOWLIST
    reason := mkReason "image/png" true "upload" }

/-- Helper: the state-threaded detector returns its input state unchanged. -/
theorem detect_file_type_st_state (magic : Classifier) (s : GuardState) :
    (detect_file_type_st magic s).2 = s := by
  unfold detect_file_type_st
  by_cases h : s.buffer.isEmpty
  · simp [h]
  · simp [h]
    cases magic s.buffer <;> simp

/-- Helper: the state-threaded validator returns its input state unchanged. -/
theorem validate_upload_st_state (magic : Classifier) (s : GuardState) (context : String) :
    (validate_upload_st magic s context).2 = s := by
  unfold validate_upload_st
  by_cases h : s.buffer.isEmpty
  · simp [h]
  · simp [h]
    cases hcs : s.caller_set with
    | none =>
      cases hd : detect_file_type_st magic s with
      | mk r s₁ =>
        have hs₁ : s₁ = s := by
          have := detect_file_type_st_state magic s
          rw [hd] at this
          exact this
        cases r <;> simp [hs₁]
    | some al =>
      by_cases hlen : al.length = 0
      · have h0 : al = [] := List.length_eq_zero.mp hlen
        simp [h0]
      · have h0 : al ≠ [] := fun he => hlen (by simp [he])
        simp [h0]
        cases hd : detect_file_type_st magic s with
        | mk r s₁ =>
          have hs₁ : s₁ = s := by
            have := detect_file_type_st_state magic s
            rw [hd] at this
            exact this
          cases r <;> simp [hs₁]

/-- Helper: the state-threaded validator computes the same result as the
pure `validate_upload` applied to the state contents. -/
theorem validate_upload_st_fst (magic : Classifier) (s : GuardState) (context : String)
    (hdef : s.default_allowlist = DEFAULT_ALLOWLIST) :
    (validate_upload_st magic s context).1
      = validate_upload magic s.buffer s.caller_set context := by
  unfold validate_upload_st validate_upload detect_file_type_st detect_file_type
  by_cases h : s.buffer.isEmpty
  · simp [h]
  · simp [h]
    cases s.caller_set with
    | none =>
      cases magic s.buffer <;> simp [hdef]
    | some al =>
      by_cases hlen : al.length = 0
      · have h0 : al = [] := List.length_eq_zero.mp hlen
        simp [h0]
      · have h0 : al ≠ [] := fun he => hlen (by simp [he])
        simp [h0]
        cases magic s.buffer <;> simp

/-- Helper: substring containment from an explicit three-way split of the
character data. -/
theorem strContains_parts (hay a b c : String)
    (h : hay.data = a.data ++ b.data ++ c.data) : strContains hay b := by
  unfold strContains
  rw [h]
  exact List.infix_append _ _ _

/-- Helper: any successful `validate_upload` result has the shape built on
line 85-90 of the source, from the classifier output and the resolved
allow-list. -/
theorem validate_upload_ok_shape (magic : Classifier) (blob : ByteBuf)
    (allowlist : Option (List String)) (context : String) (r : FileTypeResult)
    (hok : validate_upload magic blob allowlist context = .ok r) :
    ∃ al mime, magic blob = .ok mime
      ∧ ((allowlist = none ∧ al = DEFAULT_ALLOWLIST) ∨ allowlist = some al)
      ∧ r = { allowed := al.contains mime
              detected_type := mime
              expected_types := al
              reason := mkReason mime (al.contains mime) context } := by
  unfold validate_upload detect_file_type at hok
  by_cases hb : blob.isEmpty
  · simp [hb] at hok
  · simp [hb] at hok
    cases hal : allowlist with
    | none =>
      rw [hal] at hok
      cases hm : magic blob with
      | ok mime =>
        rw [hm] at hok
        refine ⟨DEFAULT_ALLOWLIST, mime, rfl, Or.inl ⟨rfl, rfl⟩, ?_⟩
        simp at hok
        rw [← hok]
        simp
      | magicExc e => rw [hm] at hok; simp at hok
      | exc e => rw [hm] at hok; simp at hok
    | some al =>
      rw [hal] at hok
      by_cases hlen : al.length = 0
      · have h0 : al = [] := List.length_eq_zero.mp hlen
        simp [h0] at hok
      · have h0 : al ≠ [] := fun he => hlen (by simp [he])
        simp [h0] at hok
        cases hm : magic blob with
        | ok mime =>
          rw [hm] at hok
          refine ⟨al, mime, rfl, Or.inr rfl, ?_⟩
          simp at hok
          rw [← hok]
          simp
        | magicExc e => rw [hm] at hok; simp at hok
        | exc e => rw [hm] at hok; simp at hok

/-- Helper: a non-empty list has `isEmpty = false`. -/
theorem isEmpty_false_of_ne_nil {α : Type} {l : List α} (hne : l ≠ []) :
    l.isEmpty = false := by
  cases l with
  | nil => exact absurd rfl hne
  | cons x xs => rfl

/-- Claim C1: with `allowlist = None` and successful detection on a
non-empty buffer, `validate_upload` resolves the policy to the built-in
default allow-list of exactly the ten listed types, and the returned
decision is allowed iff the detected type is a member of that resolved
allow-list. -/
theorem C1_default_policy (magic : Classifier) (blob : ByteBuf)
    (context mime : String) (hne : blob ≠ []) (hok : magic blob = .ok mime) :
    validate_upload magic blob none context
      = .ok { allowed := DEFAULT_ALLOWLIST.contains mime
              detected_type := mime
              expected_types := DEFAULT_ALLOWLIST
              reason := mkReason mime (DEFAULT_ALLOWLIST.contains mime) context }
    ∧ DEFAULT_ALLOWLIST =
        ["image/png", "image/jpeg", "image/gif", "image/webp",
         "video/mp4", "video/webm",
         "application/json", "text/plain", "text/vtt", "application/pdf"]
    ∧ (DEFAULT_ALLOWLIST.contains mime = true ↔ mime ∈ DEFAULT_ALLOWLIST) := by
  have hb : blob.isEmpty = false := isEmpty_false_of_ne_nil hne
  refine ⟨?_, rfl, by simp⟩
  unfold validate_upload detect_file_type
  rw [hb, hok]
  simp

/-- Witness for C1 at the PNG-recognising classifier and PNG buffer. -/
theorem C1_witness :
    validate_upload cPng pngBuf none "upload"
      = .ok { allowed := DEFAULT_ALLOWLIST.contains "image/png"
              detected_type := "image/png"
              expected_types := DEFAULT_ALLOWLIST
              reason := mkReason "image/png" (DEFAULT_ALLOWLIST.contains "image/png") "upload" }
    ∧ DEFAULT_ALLOWLIST =
        ["image/png", "image/jpeg", "image/gif", "image/webp",
         "video/mp4", "video/webm",
         "application/json", "text/plain", "text/vtt", "application/pdf"]
    ∧ (DEFAULT_ALLOWLIST.contains "image/png" = true ↔ "image/png" ∈ DEFAULT_ALLOWLIST) :=
  C1_default_policy cPng pngBuf "upload" "image/png" (by decide) rfl

/-- Claim C2: the empty buffer makes both `detect_file_type` and
`validate_upload` raise the `InvalidFileError` empty-buffer failure, for
every allow-list argument and every classifier — in particular the
classifier is never consulted. -/
theorem C2_empty_buffer (magic : Classifier) (allowlist : Option (List String))
    (context : String) :
    detect_file_type magic [] = .error (.invalidFile "Cannot detect type of empty file")
    ∧ validate_upload magic [] allowlist context
        = .error (.invalidFile "Cannot validate empty file") :=
  ⟨rfl, rfl⟩

/-- Claim C3: an explicitly supplied empty allow-list makes
`validate_upload` raise the `InvalidConfigError` empty-allowlist failure on
every non-empty buffer, for every classifier, so never a decision — even
for buffers whose detection would fail. -/
theorem C3_empty_allowlist (magic : Classifier) (blob : ByteBuf) (context : String)
    (hne : blob ≠ []) :
    validate_upload magic blob (some []) context
      = .error (.invalidConfig "Allowlist cannot be empty") := by
  have hb : blob.isEmpty = false := isEmpty_false_of_ne_nil hne
  unfold validate_upload
  rw [hb]
  simp

/-- Witness for C3 at a classifier that would fail on this buffer. -/
theorem C3_witness :
    validate_upload cMagicErr pngBuf (some []) "upload"
      = .error (.invalidConfig "Allowlist cannot be empty") :=
  C3_empty_allowlist cMagicErr pngBuf "upload" (by decide)

/-- Claim C4 is refuted as stated: when the classifier raises its
library-specific `MagicException` on a non-empty buffer, `detect_file_type`
raises `InvalidFileError` — exactly the same exception kind as the
empty-buffer failure, not a distinct classifier-failure kind. -/
theorem C4_counterexample :
    detect_file_type cMagicErr pngBuf
      = .error (.invalidFile "Failed to detect file type: corrupted signature database")
    ∧ detect_file_type cMagicErr []
      = .error (.invalidFile "Cannot detect type of empty file")
    ∧ errKind (.invalidFile "Failed to detect file type: corrupted signature database")
      = errKind (.invalidFile "Cannot detect type of empty file") :=
  ⟨rfl, rfl, rfl⟩

/-- Claim C4 (amended): on a non-empty buffer, a classifier
`MagicException` is re-raised as `InvalidFileError` — the same kind as the
empty-buffer failure — while any other classifier exception is re-raised
as the bare `FileGuardError` kind, which is distinct from the empty-buffer
kind; a classifier that returns a type string (including a generic one for
unrecognized content) is not a failure: the string is returned as is. -/
theorem C4_amended (magic : Classifier) (blob : ByteBuf) (msg mime : String)
    (hne : blob ≠ []) :
    (magic blob = .magicExc msg →
      detect_file_type magic blob
        = .error (.invalidFile ("Failed to detect file type: " ++ msg)))
    ∧ (magic blob = .exc msg →
      detect_file_type magic blob
        = .error (.fileGuard ("Magic library error: " ++ msg)))
    ∧ errKind (.fileGuard ("Magic library error: " ++ msg))
        ≠ errKind (.invalidFile "Cannot detect type of empty file")
    ∧ errKind (.invalidFile ("Failed to detect file type: " ++ msg))
        = errKind (.invalidFile "Cannot detect type of empty file")
    ∧ (magic blob = .ok mime → detect_file_type magic blob = .ok mime) := by
  have hb : blob.isEmpty = false := isEmpty_false_of_ne_nil hne
  refine ⟨?_, ?_, fun h => ErrKind.noConfusion h, rfl, ?_⟩
  · intro hm
    unfold detect_file_type
    rw [hb, hm]
    simp
  · intro hm
    unfold detect_file_type
    rw [hb, hm]
    simp
  · intro hm
    unfold detect_file_type
    rw [hb, hm]
    simp

/-- Witness for C4 (amended) at the MagicException-raising classifier. -/
theorem C4_amended_witness :
    (cMagicErr pngBuf = .magicExc "corrupted signature database" →
      detect_file_type cMagicErr pngBuf
        = .error (.invalidFile ("Failed to detect file type: "
            ++ "corrupted signature database")))
    ∧ (cMagicErr pngBuf = .exc "corrupted signature database" →
      detect_file_type cMagicErr pngBuf
        = .error (.fileGuard ("Magic library error: "
            ++ "corrupted signature database")))
    ∧ errKind (.fileGuard ("Magic library error: " ++ "corrupted signature database"))
        ≠ errKind (.invalidFile "Cannot detect type of empty file")
    ∧ errKind (.invalidFile ("Failed to detect file type: "
          ++ "corrupted signature database"))
        = errKind (.invalidFile "Cannot detect type of empty file")
    ∧ (cMagicErr pngBuf = .ok "image/png" →
      detect_file_type cMagicErr pngBuf = .ok "image/png") :=
  C4_amended cMagicErr pngBuf "corrupted signature database" "image/png" (by decide)

/-- Claim C5: on a non-empty buffer with an omitted or non-empty
allow-list, any detection failure propagates out of `validate_upload`
unchanged — the very same error value, no wrapping, never converted into a
returned decision. -/
theorem C5_propagation (magic : Classifier) (blob : ByteBuf)
    (allowlist : Option (List String)) (context : String) (e : FileGuardErr)
    (hne : blob ≠ [])
    (hal : allowlist = none ∨ ∃ l, allowlist = some l ∧ l ≠ [])
    (hdet : detect_file_type magic blob = .error e) :
    validate_upload magic blob allowlist context = .error e := by
  have hb : blob.isEmpty = false := isEmpty_false_of_ne_nil hne
  unfold validate_upload
  rw [hb]
  rcases hal with h | ⟨l, hl, hlne⟩
  · subst h
    simp
    rw [hdet]
  · subst hl
    simp [hlne]
    rw [hdet]

/-- Witness for C5: a MagicException-classifier failure reaches the caller
of `validate_upload` as the identical error value. -/
theorem C5_witness :
    validate_upload cMagicErr pngBuf none "upload"
      = .error (.invalidFile "Failed to detect file type: corrupted signature database") :=
  C5_propagation cMagicErr pngBuf none "upload"
    (.invalidFile "Failed to detect file type: corrupted signature database")
    (by decide) (Or.inl rfl) rfl

/-- Claim C6: every returned decision's reason is the one fixed template
instantiated at the detected type, the verdict and the context, and hence
contains the context verbatim, contains the detected type, and contains
the verdict word matching `allowed`. -/
theorem C6_reason_template (magic : Classifier) (blob : ByteBuf)
    (allowlist : Option (List String)) (context : String) (r : FileTypeResult)
    (hok : validate_upload magic blob allowlist context = .ok r) :
    r.reason = mkReason r.detected_type r.allowed context
    ∧ strContains r.reason context
    ∧ strContains r.reason r.detected_type
    ∧ (r.allowed = true → strContains r.reason "permitted")
    ∧ (r.allowed = false → strContains r.reason "blocked") := by
  obtain ⟨al, mime, hm, hres, hr⟩ :=
    validate_upload_ok_shape magic blob allowlist context r hok
  subst hr
  refine ⟨rfl, ?_, ?_, ?_, ?_⟩
  · exact strContains_parts _
      ("Type " ++ sq ++ mime ++ sq ++ " "
        ++ (if al.contains mime then "permitted" else "blocked") ++ " for ")
      context "" (by simp [mkReason, String.data_append])
  · exact strContains_parts _ ("Type " ++ sq) mime
      (sq ++ " " ++ (if al.contains mime then "permitted" else "blocked")
        ++ " for " ++ context)
      (by simp [mkReason, String.data_append])
  · intro ha
    have hmem : mime ∈ al := by simpa using ha
    exact strContains_parts _ ("Type " ++ sq ++ mime ++ sq ++ " ") "permitted"
      (" for " ++ context)
      (by simp [mkReason, String.data_append, hmem])
  · intro ha
    have hmem : mime ∉ al := by simpa using ha
    exact strContains_parts _ ("Type " ++ sq ++ mime ++ sq ++ " ") "blocked"
      (" for " ++ context)
      (by simp [mkReason, String.data_append, hmem])

/-- Witness for C6 at the PNG-recognising classifier and PNG buffer. -/
theorem C6_witness :
    rPng.reason = mkReason rPng.detected_type rPng.allowed "upload"
    ∧ strContains rPng.reason "upload"
    ∧ strContains rPng.reason rPng.detected_type
    ∧ (rPng.allowed = true → strContains rPng.reason "permitted")
    ∧ (rPng.allowed = false → strContains rPng.reason "blocked") :=
  C6_reason_template cPng pngBuf none "upload" rPng rfl

/-- Claim C7: on every non-empty buffer, `detect_file_type` never returns
the empty string (given the spec's black-box guarantee that the classifier
resolves every classification to some non-empty type string), and it
returns an error only when the classifier call itself raised. -/
theorem C7_never_empty_string (magic : Classifier)
    (hc : ∀ b mime, magic b = .ok mime → mime ≠ "")
    (blob : ByteBuf) (e : FileGuardErr) (hne : blob ≠ []) :
    detect_file_type magic blob ≠ .ok ""
    ∧ (detect_file_type magic blob = .error e
        → classifierErrored (magic blob) = true) := by
  have hb : blob.isEmpty = false := isEmpty_false_of_ne_nil hne
  constructor
  · intro h
    unfold detect_file_type at h
    rw [hb] at h
    simp at h
    cases hm : magic blob with
    | ok m =>
      rw [hm] at h
      simp at h
      exact hc blob m hm h
    | magicExc m => rw [hm] at h; simp at h
    | exc m => rw [hm] at h; simp at h
  · intro h
    cases hm : magic blob with
    | ok m =>
      unfold detect_file_type at h
      rw [hb, hm] at h
      simp at h
    | magicExc m => rfl
    | exc m => rfl

/-- Witness for C7 at the PNG-recognising classifier. -/
theorem C7_witness :
    detect_file_type cPng pngBuf ≠ .ok ""
    ∧ (detect_file_type cPng pngBuf = .error (.fileGuard "x")
        → classifierErrored (cPng pngBuf) = true) :=
  C7_never_empty_string cPng
    (by intro b m h; cases h; decide) pngBuf (.fileGuard "x") (by decide)

/-- Claim C8: `validate_upload` is deterministic and has no cross-call
state: a call leaves the shared state exactly as it was, and a second call
on the post-state with identical arguments yields a result identical in
every field. -/
theorem C8_deterministic (magic : Classifier) (s : GuardState) (context : String) :
    (validate_upload_st magic ((validate_upload_st magic s context).2) context).1
      = (validate_upload_st magic s context).1
    ∧ Except.map FileTypeResult.allowed
        (validate_upload_st magic ((validate_upload_st magic s context).2) context).1
      = Except.map FileTypeResult.allowed (validate_upload_st magic s context).1
    ∧ Except.map FileTypeResult.detected_type
        (validate_upload_st magic ((validate_upload_st magic s context).2) context).1
      = Except.map FileTypeResult.detected_type (validate_upload_st magic s context).1
    ∧ Except.map FileTypeResult.expected_types
        (validate_upload_st magic ((validate_upload_st magic s context).2) context).1
      = Except.map FileTypeResult.expected_types (validate_upload_st magic s context).1
    ∧ Except.map FileTypeResult.reason
        (validate_upload_st magic ((validate_upload_st magic s context).2) context).1
      = Except.map FileTypeResult.reason (validate_upload_st magic s context).1
    ∧ (validate_upload_st magic s context).2 = s := by
  rw [validate_upload_st_state magic s context]
  exact ⟨rfl, rfl, rfl, rfl, rfl, rfl⟩

/-- Claim C9: a returned decision's `expected_types` is the snapshot of
the resolved allow-list — the default contents when the caller supplied
none, the caller's set contents otherwise — and the call leaves the shared
state (default allow-list and caller set contents) unchanged. -/
theorem C9_expected_types_snapshot (magic : Classifier) (s : GuardState)
    (context : String) (r : FileTypeResult)
    (hdef : s.default_allowlist = DEFAULT_ALLOWLIST)
    (hok : (validate_upload_st magic s context).1 = .ok r) :
    r.expected_types = s.caller_set.getD DEFAULT_ALLOWLIST
    ∧ (validate_upload_st magic s context).2 = s := by
  refine ⟨?_, validate_upload_st_state magic s context⟩
  rw [validate_upload_st_fst magic s context hdef] at hok
  obtain ⟨al, mime, hm, hres, hr⟩ :=
    validate_upload_ok_shape magic s.buffer s.caller_set context r hok
  subst hr
  rcases hres with ⟨h1, h2⟩ | h1
  · rw [h1, h2]
    rfl
  · rw [h1]
    rfl

/-- Witness for C9 at the concrete PNG state. -/
theorem C9_witness :
    rPng.expected_types = s0.caller_set.getD DEFAULT_ALLOWLIST
    ∧ (validate_upload_st cPng s0 "upload").2 = s0 :=
  C9_expected_types_snapshot cPng s0 "upload" rPng rfl rfl

/-- Claim C10: neither function mutates anything it can reach — the buffer
contents, the caller's allow-list set contents and the default allow-list
contents are returned exactly as supplied, on the success path and on
every failure path. -/
theorem C10_no_mutation (magic : Classifier) (s : GuardState) (context : String) :
    (detect_file_type_st magic s).2 = s
    ∧ (validate_upload_st magic s context).2 = s :=
  ⟨detect_file_type_st_state magic s, validate_upload_st_state magic s context⟩

end FileGuard
